import Mathlib

/-
Verification development for the ollama-rust asynchronous job-tracking and
stream-relay core.

The definitions below are a shallow embedding of `src/app.rs` (progress
store, `start_model_pull`, `cancel_model_pull`, `check_pull_progress`,
the background pull task's per-chunk update) and of `src/main.rs`
(`stream_handler`, the generation relay).  Machine floats (`f32`/`f64`)
are modelled as exact rationals; JSON values are a small inductive AST
mirroring `serde_json::Value` for the accessors the code uses; the
`HashMap<String, PullProgress>` store is modelled as a key-unique
association list.  Rust string primitives (`trim`, `starts_with`,
`contains`) are re-implemented structurally over character lists so that
concrete runs reduce inside the kernel.
-/

/-- Models Rust `str::starts_with` at the character-list level:
`leadsWith pat s` is true when `pat` is a prefix of `s`. -/
def leadsWith : List Char → List Char → Bool
  | [], _ => true
  | _ :: _, [] => false
  | a :: as, b :: bs => a == b && leadsWith as bs

/-- `occursIn pat hay` is true when `pat` occurs as a contiguous
subsequence of `hay`; models Rust `str::contains` with a string pattern. -/
def occursIn (pat : List Char) : List Char → Bool
  | [] => leadsWith pat []
  | c :: rest => leadsWith pat (c :: rest) || occursIn pat rest

/-- Rust `haystack.starts_with(&pat)`. -/
def strStartsWith (hay pat : String) : Bool := leadsWith pat.data hay.data

/-- Rust `haystack.contains(&pat)`. -/
def strContains (hay pat : String) : Bool := occursIn pat.data hay.data

/-- Rust `str::trim`: drop whitespace from both ends.  (The source trims
Unicode whitespace; this model trims the ASCII whitespace recognised by
`Char.isWhitespace`, which agrees on every input considered here.) -/
def rustTrim (s : String) : String :=
  String.mk (((s.data.dropWhile Char.isWhitespace).reverse.dropWhile Char.isWhitespace).reverse)

/-- JSON values, mirroring `serde_json::Value`.  Numbers are exact
rationals; an integer literal in the wire format is a `num` with
denominator 1. -/
inductive JsonVal where
  | null
  | bool (b : Bool)
  | num (q : ℚ)
  | str (s : String)
  | arr (elems : List JsonVal)
  | obj (fields : List (String × JsonVal))

/-- `serde_json::Value::get` with a string key: `some` exactly when the
value is an object carrying the key (even when the stored value is
`null`), `none` otherwise. -/
def JsonVal.get? : JsonVal → String → Option JsonVal
  | .obj fields, key => (fields.find? (fun f => f.1 == key)).map (fun f => f.2)
  | _, _ => none

/-- `serde_json` square-bracket indexing `json[key]`: the stored value,
or `Null` when the key is missing or the value is not an object. -/
def JsonVal.index (j : JsonVal) (key : String) : JsonVal :=
  (j.get? key).getD .null

/-- `serde_json::Value::as_str`. -/
def JsonVal.asStr : JsonVal → Option String
  | .str s => some s
  | _ => none

/-- `serde_json::Value::as_bool`. -/
def JsonVal.asBool : JsonVal → Option Bool
  | .bool b => some b
  | _ => none

/-- `serde_json::Value::as_u64`: defined exactly on integral numbers in
`[0, 2^64)`.  (In `serde_json` a float-typed number also yields `none`;
the rational model conflates `100` with `100.0`, which is irrelevant to
the integral wire values considered here.) -/
def JsonVal.asU64 : JsonVal → Option Nat
  | .num q => if q.den = 1 ∧ 0 ≤ q.num ∧ q.num < 2 ^ 64 then some q.num.toNat else none
  | _ => none

/-- The `PullProgress` record of `src/app.rs`, one per tracked download.
`percent` (an `f32` in the source) is an exact rational; `last_update`
is the i64 timestamp. -/
structure PullProgress where
  model : String
  status : String
  percent : ℚ
  done : Bool
  error : Option String
  bytes_downloaded : Nat
  speed : String
  last_update : Int
  deriving DecidableEq, Repr

/-- The `StatusResponse` of `src/app.rs`. -/
structure StatusResponse where
  running : Bool
  models : List String
  deriving DecidableEq, Repr

/-- `KB` constant of `format_bytes`. -/
def KB : Nat := 1024

/-- `MB` constant of `format_bytes`. -/
def MB : Nat := KB * 1024

/-- `GB` constant of `format_bytes`. -/
def GB : Nat := MB * 1024

/-- Round a nonnegative rational to the nearest integer, ties to even:
the rounding Rust applies when formatting with one decimal digit. -/
def roundHalfEven (q : ℚ) : ℤ :=
  if Int.fract q < 1 / 2 then ⌊q⌋
  else if 1 / 2 < Int.fract q then ⌊q⌋ + 1
  else if 2 ∣ ⌊q⌋ then ⌊q⌋ else ⌊q⌋ + 1

/-- Rust `format!` with one decimal digit applied to a nonnegative value
modelled exactly over the rationals (the source computes in `f64`). -/
def fmt1 (q : ℚ) : String :=
  let n : Nat := (roundHalfEven (q * 10)).toNat
  toString (n / 10) ++ "." ++ toString (n % 10)

/-- `format_bytes` of `src/app.rs`. -/
def format_bytes (bytes : Nat) : String :=
  if bytes ≥ GB then fmt1 ((bytes : ℚ) / (GB : ℚ)) ++ " GB"
  else if bytes ≥ MB then fmt1 ((bytes : ℚ) / (MB : ℚ)) ++ " MB"
  else if bytes ≥ KB then fmt1 ((bytes : ℚ) / (KB : ℚ)) ++ " KB"
  else toString bytes ++ " B"

/-- The global `PULL_PROGRESS` map `HashMap<String, PullProgress>`,
modelled as a key-unique association list. -/
abbrev Store := List (String × PullProgress)

/-- `map.get(key)` on the progress store. -/
def storeGet (store : Store) (key : String) : Option PullProgress :=
  (store.find? (fun e => e.1 == key)).map (fun e => e.2)

/-- `map.insert(key, v)` on the progress store: replaces any prior
record for the same key. -/
def storeInsert (store : Store) (key : String) (v : PullProgress) : Store :=
  (key, v) :: store.filter (fun e => e.1 != key)

/-- The fresh record `start_model_pull` inserts and returns for a
non-empty (trimmed) model name. -/
def initialRecord (model : String) : PullProgress :=
  { model := model, status := "Starting...", percent := 0, done := false,
    error := none, bytes_downloaded := 0, speed := "", last_update := 0 }

/-- The terminal record `start_model_pull` returns synchronously for an
empty (trimmed) model name. -/
def emptyNameRecord (model_name : String) : PullProgress :=
  { model := model_name, status := "Error", percent := 0, done := true,
    error := some "Model name cannot be empty", bytes_downloaded := 0,
    speed := "", last_update := 0 }

/-- Result of the synchronous part of `start_model_pull`: the record
returned to the caller, the store after the call, and whether the call
reached out to the upstream service (the `get_ollama_status` liveness
check and the detached pull task). -/
structure StartResult where
  returned : PullProgress
  store : Store
  contactedUpstream : Bool
  deriving Repr

/-- The synchronous part of `start_model_pull` in `src/app.rs`: reject
an empty trimmed name without touching store or upstream; otherwise
ensure liveness, insert the fresh record keyed by the trimmed name, and
return an identical record.  The detached background task is modelled
separately by `applyChunk`. -/
def start_model_pull (model_name : String) (store : Store) : StartResult :=
  if rustTrim model_name = "" then
    ⟨emptyNameRecord model_name, store, false⟩
  else
    let model := rustTrim model_name
    ⟨initialRecord model, storeInsert store model (initialRecord model), true⟩

/-- The record the background pull task builds from one parsed JSON
chunk (`src/app.rs` lines 136-168).  `now` is the sampled wall-clock
second. -/
def processChunk (model : String) (json : JsonVal) (now : Int) : PullProgress :=
  let status_text := (json.index "status").asStr.getD ""
  let total := (json.index "total").asU64.getD 0
  let completed := (json.index "completed").asU64.getD 0
  let percent : ℚ := if 0 < total then ((completed : ℚ) / (total : ℚ)) * 100 else 0
  let speed :=
    if 0 < total ∧ 0 < completed ∧ completed < total then
      format_bytes completed ++ " / " ++ format_bytes total
    else ""
  let is_done := status_text == "success" || (json.get? "error").isSome
  let error := (json.index "error").asStr
  { model := model,
    status := if is_done && error.isNone then "Complete" else status_text,
    percent := if is_done && error.isNone then 100 else percent,
    done := is_done,
    error := error,
    bytes_downloaded := completed,
    speed := speed,
    last_update := now }

/-- One iteration of the background task's line loop: unconditionally
insert the freshly built record for the download's key. -/
def applyChunk (model : String) (json : JsonVal) (now : Int) (store : Store) : Store :=
  storeInsert store model (processChunk model json now)

/-- `cancel_model_pull` of `src/app.rs`: flag an existing record (if
any) as cancelled, and report acceptance.  The `pkill` side effect is
external to the store. -/
def cancel_model_pull (model_name : String) (store : Store) : Bool × Store :=
  let model := rustTrim model_name
  match storeGet store model with
  | some p =>
      (true, storeInsert store model
        { p with done := true, status := "Cancelled",
                 error := some "Download cancelled by user" })
  | none => (true, store)

/-- `check_pull_progress` of `src/app.rs`: return the stored record
verbatim when present; otherwise reconcile against the status probe's
model list.  The handler only ever reads the store, which the
store-free return type makes explicit. -/
def check_pull_progress (model_name : String) (store : Store) (st : StatusResponse) : PullProgress :=
  let model := rustTrim model_name
  match storeGet store model with
  | some p => p
  | none =>
      let model_exists := st.models.any (fun m => strStartsWith m model || strContains m model)
      if model_exists then
        { model := model, status := "Complete", percent := 100, done := true,
          error := none, bytes_downloaded := 0, speed := "", last_update := 0 }
      else
        { model := model, status := "Waiting...", percent := 0, done := false,
          error := none, bytes_downloaded := 0, speed := "", last_update := 0 }

/-- The event payload sequence emitted by `stream_handler` in
`src/main.rs` given the parse results of the framed upstream lines
(`none` is a line `serde_json` rejected): per line, a token event when
`response` is a string, then a sentinel event when `done` is `true`;
the relay stream ends only when the lines are exhausted. -/
def relayEvents : List (Option JsonVal) → List String
  | [] => []
  | none :: rest => relayEvents rest
  | some j :: rest =>
      (match (j.index "response").asStr with
       | some t => [t]
       | none => []) ++
      (if ((j.index "done").asBool).getD false then ["__END__"] else []) ++
      relayEvents rest

/-- Upstream line `\x7b"done":true\x7d` as parsed JSON. -/
def doneLine : JsonVal := .obj [("done", .bool true)]

/-- An upstream token line arriving after the `done` line. -/
def extraLine : JsonVal := .obj [("response", .str "x")]

/-- A line carrying both a token and the `done` flag. -/
def respDoneLine : JsonVal := .obj [("response", .str "ok"), ("done", .bool true)]

/-- The worked generation-relay example of the specification. -/
def specExampleLines : List (Option JsonVal) :=
  [some (.obj [("response", .str "Hi")]),
   some (.obj [("response", .str " there")]),
   some (.obj [("done", .bool true)])]

/-- A terminal chunk that carries both `status:"success"` and a string
`error` field. -/
def successErrorChunk : JsonVal :=
  .obj [("status", .str "success"), ("error", .str "boom")]

/-- A success chunk whose last reported progress is 5 of 10 bytes. -/
def successMidwayChunk : JsonVal :=
  .obj [("status", .str "success"), ("completed", .num 5), ("total", .num 10)]

/-- A chunk whose only field is a string `error`. -/
def bareErrorChunk : JsonVal := .obj [("error", .str "boom")]

/-- A chunk with a non-string `error` value. -/
def numericErrorChunk : JsonVal := .obj [("error", .num 5)]

/-- A malformed progress chunk reporting more completed bytes than the
total. -/
def overflowChunk : JsonVal :=
  .obj [("status", .str "downloading"), ("total", .num 100), ("completed", .num 200)]

/-- An ordinary mid-download progress chunk, 5 of 10 bytes. -/
def progressChunk : JsonVal :=
  .obj [("status", .str "downloading"), ("total", .num 10), ("completed", .num 5)]

/-- A record in the terminal completed state, as left by a successful
pull. -/
def completeRec : PullProgress :=
  { model := "m", status := "Complete", percent := 100, done := true,
    error := none, bytes_downloaded := 0, speed := "", last_update := 0 }

theorem storeGet_insert_self (store : Store) (key : String) (v : PullProgress) :
    storeGet (storeInsert store key v) key = some v := by
  simp [storeGet, storeInsert]

/-- Claim C1 (counterexample): after the relay reads the line
`done:true` it does not end: a later upstream token line still produces
an event, so the emitted sequence is not just the sentinel. -/
theorem relay_not_terminated_counterexample :
    relayEvents [some doneLine, some extraLine] = ["__END__", "x"] ∧
    relayEvents [some doneLine, some extraLine] ≠ ["__END__"] := by
  constructor <;> decide

/-- Claim C1 (amended): the relay emits exactly one sentinel event for
each line whose `done` field is `true` (after that line's token event,
if any), but it does not terminate there: subsequent upstream lines are
relayed identically, and the stream ends only when the upstream lines
are exhausted.  The specification's worked example (two tokens then one
sentinel) holds because there the `done` line is last. -/
theorem relay_sentinel_not_terminal :
    relayEvents specExampleLines = ["Hi", " there", "__END__"] ∧
    ∀ (j : JsonVal) (rest : List (Option JsonVal)),
      (j.index "done").asBool = some true →
      relayEvents (some j :: rest) =
        ((j.index "response").asStr.elim [] fun t => [t]) ++ "__END__" :: relayEvents rest := by
  constructor
  · decide
  · intro j rest h
    rcases hr : (j.index "response").asStr with _ | t <;> simp [relayEvents, h, hr]

/-- Claim C1 (witness): the amended relay law evaluated on a line that
carries both a token and the terminal flag, followed by one more line. -/
theorem relay_sentinel_not_terminal_witness :
    relayEvents (some respDoneLine :: [some extraLine]) =
      ((respDoneLine.index "response").asStr.elim [] fun t => [t]) ++
        "__END__" :: relayEvents [some extraLine] :=
  relay_sentinel_not_terminal.2 respDoneLine [some extraLine] (by decide)

/-- Claim C8: a model name whose trimmed form is empty makes
`start_model_pull` return a terminal record with status `"Error"`,
`done = true` and a non-empty error message, synchronously, leaving the
store untouched and never contacting the upstream service. -/
theorem start_empty_name_rejected (mn : String) (store : Store)
    (h : rustTrim mn = "") :
    (start_model_pull mn store).returned.status = "Error" ∧
    (start_model_pull mn store).returned.done = true ∧
    (∃ msg, (start_model_pull mn store).returned.error = some msg ∧ msg ≠ "") ∧
    (start_model_pull mn store).store = store ∧
    (start_model_pull mn store).contactedUpstream = false := by
  refine ⟨?_, ?_, ⟨"Model name cannot be empty", ?_, by decide⟩, ?_, ?_⟩ <;>
    simp [start_model_pull, h, emptyNameRecord]

/-- Claim C8 (witness): the empty model name itself. -/
theorem start_empty_name_rejected_witness :
    (start_model_pull "" []).returned.status = "Error" ∧
    (start_model_pull "" []).returned.done = true ∧
    (∃ msg, (start_model_pull "" []).returned.error = some msg ∧ msg ≠ "") ∧
    (start_model_pull "" []).store = ([] : Store) ∧
    (start_model_pull "" []).contactedUpstream = false :=
  start_empty_name_rejected "" [] (by decide)

/-- Claim C10: a pull chunk that carries an `error` field whose value
is not a JSON string is recorded as a successful completion: the
background task stores `status = "Complete"`, `percent = 100`,
`done = true`, `error = none`. -/
theorem nonstring_error_completes (model : String) (j : JsonVal) (now : Int)
    (v : JsonVal) (hv : j.get? "error" = some v) (hs : v.asStr = none) :
    (processChunk model j now).status = "Complete" ∧
    (processChunk model j now).percent = 100 ∧
    (processChunk model j now).done = true ∧
    (processChunk model j now).error = none := by
  have herr : (JsonVal.index j "error").asStr = none := by
    rw [JsonVal.index, hv]
    simpa using hs
  have hsome : (j.get? "error").isSome = true := by simp [hv]
  refine ⟨?_, ?_, ?_, ?_⟩ <;> simp [processChunk, herr, hsome]

/-- Claim C10 (witness): the chunk whose `error` field holds the number
5 is stored as a completed download. -/
theorem nonstring_error_completes_witness :
    (processChunk "m" numericErrorChunk 0).status = "Complete" ∧
    (processChunk "m" numericErrorChunk 0).percent = 100 ∧
    (processChunk "m" numericErrorChunk 0).done = true ∧
    (processChunk "m" numericErrorChunk 0).error = none :=
  nonstring_error_completes "m" numericErrorChunk 0 (.num 5) rfl rfl

/-- Claim C2 (counterexample): a chunk whose `status` field equals
`"success"` but which also carries a string `error` field is not stored
as `"Complete"` with `error = none`: the record keeps the raw status
text and the error message. -/
theorem success_with_error_counterexample :
    (successErrorChunk.index "status").asStr = some "success" ∧
    (processChunk "m" successErrorChunk 0).status ≠ "Complete" ∧
    (processChunk "m" successErrorChunk 0).status = "success" ∧
    (processChunk "m" successErrorChunk 0).error = some "boom" := by
  refine ⟨by decide, by decide, by decide, by decide⟩

/-- Claim C2 (amended): for every chunk whose `status` field equals
`"success"` and which carries no string-valued `error` field, the
background task stores `status = "Complete"`, `percent = 100`,
`done = true`, `error = none`, regardless of the chunk's
`completed`/`total` values. -/
theorem success_chunk_completes (model : String) (j : JsonVal) (now : Int)
    (store : Store) (hs : (j.index "status").asStr = some "success")
    (he : (j.index "error").asStr = none) :
    ∃ r, storeGet (applyChunk model j now store) model = some r ∧
      r.status = "Complete" ∧ r.percent = 100 ∧ r.done = true ∧ r.error = none := by
  refine ⟨processChunk model j now, ?_, ?_, ?_, ?_, ?_⟩
  · simp [applyChunk, storeGet_insert_self]
  all_goals simp [processChunk, hs, he]

/-- Claim C2 (witness): a success chunk whose last report was 5 of 10
bytes is still stored as 100 percent complete. -/
theorem success_chunk_completes_witness :
    ∃ r, storeGet (applyChunk "m" successMidwayChunk 0 []) "m" = some r ∧
      r.status = "Complete" ∧ r.percent = 100 ∧ r.done = true ∧ r.error = none :=
  success_chunk_completes "m" successMidwayChunk 0 [] (by decide) (by decide)

/-- Claim C3 (counterexample): a chunk carrying only a string `error`
field is marked done, but its status is the chunk's status text (here
the empty string), not `"Error"`. -/
theorem error_chunk_status_counterexample :
    (bareErrorChunk.get? "error").isSome = true ∧
    (processChunk "m" bareErrorChunk 0).done = true ∧
    (processChunk "m" bareErrorChunk 0).status ≠ "Error" ∧
    (processChunk "m" bareErrorChunk 0).status = "" := by
  refine ⟨by decide, by decide, by decide, by decide⟩

/-- Claim C3 (amended): for every chunk carrying a string-valued
`error` field, the background task marks the stored record
`done = true` with `error` present (the chunk's error string, verbatim)
and with `status` equal to the chunk's status text (empty when the
chunk has no string `status` field); the status is not forced to
`"Error"` on this path. -/
theorem error_chunk_marks_done (model : String) (j : JsonVal) (now : Int)
    (store : Store) (msg : String) (he : (j.index "error").asStr = some msg) :
    ∃ r, storeGet (applyChunk model j now store) model = some r ∧
      r.done = true ∧ r.error = some msg ∧
      r.status = (j.index "status").asStr.getD "" := by
  have hg : (j.get? "error").isSome = true := by
    rcases h : j.get? "error" with _ | v
    · rw [JsonVal.index, h] at he
      simp [JsonVal.asStr] at he
    · simp [h]
  refine ⟨processChunk model j now, ?_, ?_, ?_, ?_⟩
  · simp [applyChunk, storeGet_insert_self]
  all_goals simp [processChunk, he, hg]

/-- Claim C3 (witness): the chunk whose only field is the error string
`"boom"`. -/
theorem error_chunk_marks_done_witness :
    ∃ r, storeGet (applyChunk "m" bareErrorChunk 0 []) "m" = some r ∧
      r.done = true ∧ r.error = some "boom" ∧
      r.status = (bareErrorChunk.index "status").asStr.getD "" :=
  error_chunk_marks_done "m" bareErrorChunk 0 [] "boom" (by decide)

/-- Claim C4 (counterexample): a record that has reached `done = true`
(here a completed download) is not frozen: a subsequent
`cancel_model_pull` rewrites its `status` and `error` fields. -/
theorem frozen_after_done_counterexample :
    (storeGet [("m", completeRec)] "m").map (fun p => p.done) = some true ∧
    (storeGet (cancel_model_pull "m" [("m", completeRec)]).2 "m").map (fun p => p.status) =
      some "Cancelled" ∧
    storeGet (cancel_model_pull "m" [("m", completeRec)]).2 "m" ≠
      storeGet [("m", completeRec)] "m" := by
  refine ⟨by decide, by decide, by decide⟩

/-- Claim C4 (amended): terminal records are not frozen.
`cancel_model_pull` overwrites the `status` and `error` fields of an
existing record even when that record already has `done = true`, and
the background task's chunk processing unconditionally replaces the
stored record for its key with the record built from the incoming
chunk, whatever was stored before.  Only removal is left to the caller
(the store offers no freeze). -/
theorem terminal_record_not_frozen (mn : String) (store : Store) (p : PullProgress)
    (hp : storeGet store (rustTrim mn) = some p) (hdone : p.done = true) :
    storeGet (cancel_model_pull mn store).2 (rustTrim mn) =
      some { p with done := true, status := "Cancelled",
                    error := some "Download cancelled by user" } ∧
    ∀ (j : JsonVal) (now : Int),
      storeGet (applyChunk (rustTrim mn) j now store) (rustTrim mn) =
        some (processChunk (rustTrim mn) j now) := by
  constructor
  · simp [cancel_model_pull, hp, storeGet_insert_self]
  · intro j now
    simp [applyChunk, storeGet_insert_self]

/-- Claim C4 (witness): cancelling a completed record rewrites it. -/
theorem terminal_record_not_frozen_witness :
    storeGet (cancel_model_pull "m" [("m", completeRec)]).2 (rustTrim "m") =
      some { completeRec with done := true, status := "Cancelled",
                              error := some "Download cancelled by user" } ∧
    ∀ (j : JsonVal) (now : Int),
      storeGet (applyChunk (rustTrim "m") j now [("m", completeRec)]) (rustTrim "m") =
        some (processChunk (rustTrim "m") j now) :=
  terminal_record_not_frozen "m" [("m", completeRec)] completeRec (by decide) (by decide)

/-- Claim C5 (counterexample): for a name absent from both the store
and the model list, `check_pull_progress` reports the status label
`"Waiting..."` (three ASCII dots), not the specification's string
`"Waiting…"` (ellipsis character). -/
theorem check_waiting_label_counterexample :
    (check_pull_progress "foo" [] ⟨false, []⟩).status = "Waiting..." ∧
    (check_pull_progress "foo" [] ⟨false, []⟩).status ≠ "Waiting…" ∧
    (check_pull_progress "foo" [] ⟨false, []⟩).percent = 0 ∧
    (check_pull_progress "foo" [] ⟨false, []⟩).done = false := by
  refine ⟨by decide, by decide, by decide, by decide⟩

/-- Claim C5 (amended): for every model name with no record in the
store, `check_pull_progress` reads the store only (its result is a pure
function of the store and status snapshot): if the trimmed name matches
an installed model (as a prefix or substring, which includes every
exact match) it reports `status = "Complete"`, `percent = 100`,
`done = true`; otherwise it reports `status = "Waiting..."` (ASCII
dots, not the unicode ellipsis), `percent = 0`, `done = false`. -/
theorem check_no_record_fallback (mn : String) (store : Store) (st : StatusResponse)
    (h : storeGet store (rustTrim mn) = none) :
    ((st.models.any fun m => strStartsWith m (rustTrim mn) || strContains m (rustTrim mn)) = true →
      check_pull_progress mn store st =
        { model := rustTrim mn, status := "Complete", percent := 100, done := true,
          error := none, bytes_downloaded := 0, speed := "", last_update := 0 }) ∧
    ((st.models.any fun m => strStartsWith m (rustTrim mn) || strContains m (rustTrim mn)) = false →
      check_pull_progress mn store st =
        { model := rustTrim mn, status := "Waiting...", percent := 0, done := false,
          error := none, bytes_downloaded := 0, speed := "", last_update := 0 }) := by
  constructor <;> intro hc <;> simp [check_pull_progress, h, hc]

/-- Claim C5 (witness): both fallback branches evaluated concretely; the
name `llama` matches the installed `llama3` as a substring, and `phi`
matches nothing. -/
theorem check_no_record_fallback_witness :
    (check_pull_progress "llama" [] ⟨true, ["llama3"]⟩ =
      { model := rustTrim "llama", status := "Complete", percent := 100, done := true,
        error := none, bytes_downloaded := 0, speed := "", last_update := 0 }) ∧
    (check_pull_progress "phi" [] ⟨true, ["llama3"]⟩ =
      { model := rustTrim "phi", status := "Waiting...", percent := 0, done := false,
        error := none, bytes_downloaded := 0, speed := "", last_update := 0 }) :=
  ⟨(check_no_record_fallback "llama" [] ⟨true, ["llama3"]⟩ (by decide)).1 (by decide),
   (check_no_record_fallback "phi" [] ⟨true, ["llama3"]⟩ (by decide)).2 (by decide)⟩

/-- Claim C6 (counterexample): cancelling an existing non-terminal
record records the message `"Download cancelled by user"`, not the
specification's `"cancelled by caller"`. -/
theorem cancel_message_counterexample :
    (storeGet [("m", initialRecord "m")] "m").map (fun p => p.done) = some false ∧
    (storeGet (cancel_model_pull "m" [("m", initialRecord "m")]).2 "m").map (fun p => p.error) =
      some (some "Download cancelled by user") ∧
    (storeGet (cancel_model_pull "m" [("m", initialRecord "m")]).2 "m").map (fun p => p.error) ≠
      some (some "cancelled by caller") := by
  refine ⟨by decide, by decide, by decide⟩

/-- Claim C6 (amended): `cancel_model_pull` always returns `true` when
the call is accepted; on a key with no record it creates none and
leaves the store unchanged; on an existing record (terminal or not) it
sets `done = true`, `status = "Cancelled"` and
`error = some "Download cancelled by user"` (not "cancelled by
caller"), leaving the other fields intact. -/
theorem cancel_behavior (mn : String) (store : Store) :
    (cancel_model_pull mn store).1 = true ∧
    (storeGet store (rustTrim mn) = none → (cancel_model_pull mn store).2 = store) ∧
    (∀ p, storeGet store (rustTrim mn) = some p →
      storeGet (cancel_model_pull mn store).2 (rustTrim mn) =
        some { p with done := true, status := "Cancelled",
                      error := some "Download cancelled by user" }) := by
  refine ⟨?_, ?_, ?_⟩
  · rcases h : storeGet store (rustTrim mn) with _ | p <;> simp [cancel_model_pull, h]
  · intro h
    simp [cancel_model_pull, h]
  · intro p hp
    simp [cancel_model_pull, hp, storeGet_insert_self]

/-- Claim C6 (witness): both cancellation cases evaluated concretely:
a missing key is accepted without creating a record, and an existing
fresh record is rewritten with the actual message. -/
theorem cancel_behavior_witness :
    (cancel_model_pull "ghost" [] ).1 = true ∧
    (cancel_model_pull "ghost" []).2 = ([] : Store) ∧
    storeGet (cancel_model_pull "m" [("m", initialRecord "m")]).2 (rustTrim "m") =
      some { initialRecord "m" with done := true, status := "Cancelled",
                                    error := some "Download cancelled by user" } :=
  ⟨(cancel_behavior "ghost" []).1,
   (cancel_behavior "ghost" []).2.1 (by decide),
   (cancel_behavior "m" [("m", initialRecord "m")]).2.2 (initialRecord "m") (by decide)⟩

/-- Claim C7 (counterexample): the background task does not clamp the
percentage: a chunk reporting 200 completed of 100 total bytes is
stored with `percent = 200`, outside [0,100]. -/
theorem percent_unclamped_counterexample :
    (processChunk "m" overflowChunk 0).percent = 200 ∧
    ¬ (processChunk "m" overflowChunk 0).percent ≤ 100 := by
  have h1 : (overflowChunk.index "total").asU64.getD 0 = 100 := by decide
  have h2 : (overflowChunk.index "completed").asU64.getD 0 = 200 := by decide
  have h3 : (overflowChunk.index "status").asStr.getD "" = "downloading" := by decide
  have h4 : (overflowChunk.get? "error").isSome = false := by decide
  have h5 : (overflowChunk.index "error").asStr = none := by decide
  have hp : (processChunk "m" overflowChunk 0).percent = 200 := by
    simp only [processChunk, h1, h2, h3, h4, h5]
    norm_num
    decide
  exact ⟨hp, by rw [hp]; norm_num⟩

/-- Claim C7 (amended): the stored percentage is never negative, and it
stays within [0,100] for every chunk whose reported `completed` does
not exceed its reported `total` (in particular for all well-formed
progress sequences); but it is computed as `completed/total*100`
without clamping, so a chunk with `completed > total` lands outside the
interval. -/
theorem percent_bounds (model : String) (j : JsonVal) (now : Int) :
    0 ≤ (processChunk model j now).percent ∧
    ((j.index "completed").asU64.getD 0 ≤ (j.index "total").asU64.getD 0 →
      (processChunk model j now).percent ≤ 100) := by
  unfold processChunk
  dsimp only
  set t := (j.index "total").asU64.getD 0 with ht
  set c := (j.index "completed").asU64.getD 0 with hc
  constructor
  · split
    · norm_num
    · split
      · positivity
      · norm_num
  · intro hle
    split
    · norm_num
    · split
      · rename_i htpos
        have hcq : (c : ℚ) ≤ (t : ℚ) := by exact_mod_cast hle
        have htq : (0 : ℚ) < (t : ℚ) := by exact_mod_cast htpos
        rw [div_mul_eq_mul_div, div_le_iff₀ htq]
        nlinarith
      · norm_num

/-- Claim C7 (witness): a mid-download chunk reporting 5 of 10 bytes is
stored with a percentage inside [0,100]. -/
theorem percent_bounds_witness :
    0 ≤ (processChunk "m" progressChunk 0).percent ∧
    (processChunk "m" progressChunk 0).percent ≤ 100 :=
  ⟨(percent_bounds "m" progressChunk 0).1,
   (percent_bounds "m" progressChunk 0).2 (by decide)⟩

/-- Claim C9 (counterexample): for the empty model name, the empty-name
rejection leaves no record behind, and the immediately following
`check_pull_progress` falls back to the model list, where the empty
string matches any installed model, so the poll reports a terminal
record with `done = true` and `percent = 100` instead of a non-terminal
one with `percent = 0`. -/
theorem start_check_empty_counterexample :
    (check_pull_progress "" (start_model_pull "" []).store ⟨true, ["llama3"]⟩).done = true ∧
    (check_pull_progress "" (start_model_pull "" []).store ⟨true, ["llama3"]⟩).percent = 100 := by
  refine ⟨by decide, by decide⟩

/-- Claim C9 (amended): for every model name whose trimmed form is
non-empty, `start_model_pull` followed immediately by
`check_pull_progress` (on the resulting store, before any
background-task mutation, under any status snapshot) returns the fresh
`Starting...` record, which has `done = false` and `percent = 0`. -/
theorem start_then_check_fresh (mn : String) (store : Store) (st : StatusResponse)
    (h : rustTrim mn ≠ "") :
    check_pull_progress mn (start_model_pull mn store).store st = initialRecord (rustTrim mn) ∧
    (check_pull_progress mn (start_model_pull mn store).store st).done = false ∧
    (check_pull_progress mn (start_model_pull mn store).store st).percent = 0 := by
  have hstore : (start_model_pull mn store).store =
      storeInsert store (rustTrim mn) (initialRecord (rustTrim mn)) := by
    simp [start_model_pull, h]
  have hchk : check_pull_progress mn (start_model_pull mn store).store st =
      initialRecord (rustTrim mn) := by
    rw [hstore]
    simp [check_pull_progress, storeGet_insert_self]
  exact ⟨hchk, by rw [hchk]; rfl, by rw [hchk]; rfl⟩

/-- Claim C9 (witness): starting a download of `llama3` and polling at
once returns the fresh non-terminal record. -/
theorem start_then_check_fresh_witness :
    check_pull_progress "llama3" (start_model_pull "llama3" []).store ⟨true, []⟩ =
      initialRecord (rustTrim "llama3") ∧
    (check_pull_progress "llama3" (start_model_pull "llama3" []).store ⟨true, []⟩).done = false ∧
    (check_pull_progress "llama3" (start_model_pull "llama3" []).store ⟨true, []⟩).percent = 0 :=
  start_then_check_fresh "llama3" [] ⟨true, []⟩ (by decide)
